import Mathlib

/-!
Shallow embedding of the fuel-ledger engine of `src/main.py` (a two-party
shared-fuel Telegram bot).  Numeric values are modelled as rationals; the
`1e-9` float tolerance of the source appears as the constant `eps`.
Each command handler becomes a pure function `args → State → Result × State`;
the chat/transport layer (argument parsing, replies) is out of scope, so the
functions receive already-parsed numeric arguments, exactly as the handlers
see them after their `float(...)` conversion succeeds.
-/

namespace FuelBot

/-- The two configured buckets, `ALLOWED_BUCKETS = ("Aditya", "Archit")`. -/
inductive Bucket where
  | aditya
  | archit
deriving DecidableEq, Repr

/-- `other_bucket`: the other of the exactly two buckets. -/
def Bucket.other : Bucket → Bucket
  | .aditya => .archit
  | .archit => .aditya

/-- Resolution of a `/register` argument against `ALLOWED_BUCKETS`
(the handler title-cases its input; we receive the normalized name). -/
def parseBucket (name : String) : Option Bucket :=
  if name = "Aditya" then some .aditya
  else if name = "Archit" then some .archit
  else none

/-- `DEFAULT_MILEAGE = 40.0` km per liter. -/
def DEFAULT_MILEAGE : ℚ := 40

/-- The `1e-9` absolute tolerance used by `ride_end` and `pay`. -/
def eps : ℚ := 1 / 1000000000

/-- The `State` dataclass: the entire ledger state of the bot. -/
structure LState where
  /-- map telegram user id → bucket name (`users`). -/
  users : String → Option Bucket
  /-- liters each bucket currently has contributed/available (`tank`). -/
  tank : Bucket → ℚ
  /-- how many liters each bucket owes to the other bucket (`debt`). -/
  debt : Bucket → ℚ
  /-- temporary ride start odometer readings per user id (`ride_start`). -/
  rideStart : String → Option ℚ
  /-- vehicle-wide mileage in km per liter (`mileage`). -/
  mileage : ℚ
  /-- `last_price_per_liter`. -/
  lastPricePerLiter : ℚ

attribute [ext] LState

/-- `State()`: the fresh zero state built by the dataclass defaults. -/
def initState : LState where
  users := fun _ => none
  tank := fun _ => 0
  debt := fun _ => 0
  rideStart := fun _ => none
  mileage := DEFAULT_MILEAGE
  lastPricePerLiter := 0

/-- Result of `/register`. -/
inductive RegResult where
  | ok
  | invalidBucket
deriving DecidableEq, Repr

/-- Result of `/set_mileage` and `/ride_start`. -/
inductive SimpleResult where
  | ok
  | notRegistered
  | invalidValue
deriving DecidableEq, Repr

/-- Result of `/ride_end`. -/
inductive RideEndResult where
  | notRegistered
  | noRideStarted
  | negativeDistance
  | noMileage
  | insufficientFuel (used avail : ℚ)
  | ok (distance used borrowed : ℚ)
deriving DecidableEq, Repr

/-- Result of `/fill`. -/
inductive FillResult where
  | notRegistered
  | invalidValue
  | ok (cleared remaining price : ℚ)
deriving DecidableEq, Repr

/-- Result of `/settle`. -/
inductive SettleResult where
  | notRegistered
  | noPriceSet
  | ok (litersOwed cashValue : ℚ)
deriving DecidableEq, Repr

/-- The argument of `/pay`: the literal word `full`, or a parsed cash amount. -/
inductive PayArg where
  | full
  | cash (amount : ℚ)
deriving DecidableEq, Repr

/-- Result of `/pay`. -/
inductive PayResult where
  | notRegistered
  | noDebt
  | noPriceSet
  | invalidValue
  | okFull (cleared : ℚ)
  | okCash (cleared remaining : ℚ)
deriving DecidableEq, Repr

/-- `register` handler: bind `uid` to a bucket if the name is allowed. -/
def register (uid name : String) (s : LState) : RegResult × LState :=
  match parseBucket name with
  | none => (.invalidBucket, s)
  | some b => (.ok, { s with users := Function.update s.users uid (some b) })

/-- `set_mileage` handler: requires registration and `kmpl > 0`. -/
def set_mileage (uid : String) (kmpl : ℚ) (s : LState) : SimpleResult × LState :=
  match s.users uid with
  | none => (.notRegistered, s)
  | some _ =>
    if kmpl ≤ 0 then (.invalidValue, s)
    else (.ok, { s with mileage := kmpl })

/-- `ride_start` handler: records the starting odometer reading, overwriting
any prior pending start for that user. -/
def ride_start (uid : String) (start_km : ℚ) (s : LState) : SimpleResult × LState :=
  match s.users uid with
  | none => (.notRegistered, s)
  | some _ =>
    (.ok, { s with rideStart := Function.update s.rideStart uid (some start_km) })

/-- `ride_end` handler, translated line by line: pop the pending start,
check distance, mileage, total available fuel (with `eps` tolerance), then
deduct from the caller's tank first and borrow the shortfall from the other
tank while recording it as debt.  The pop is restored on the
`negativeDistance` and `insufficientFuel` paths but not on `noMileage`,
exactly as in the source. -/
def ride_end (uid : String) (end_km : ℚ) (s : LState) : RideEndResult × LState :=
  match s.users uid with
  | none => (.notRegistered, s)
  | some bucket =>
    match s.rideStart uid with
    | none => (.noRideStarted, s)
    | some start_km =>
      let s1 : LState := { s with rideStart := Function.update s.rideStart uid none }
      let distance := end_km - start_km
      if distance < 0 then
        (.negativeDistance,
         { s1 with rideStart := Function.update s1.rideStart uid (some start_km) })
      else if s1.mileage ≤ 0 then
        (.noMileage, s1)
      else
        let used_l := distance / s1.mileage
        let me := bucket
        let other := bucket.other
        let available_total := s1.tank me + s1.tank other
        if used_l > available_total + eps then
          (.insufficientFuel used_l available_total,
           { s1 with rideStart := Function.update s1.rideStart uid (some start_km) })
        else
          if s1.tank me ≥ used_l then
            (.ok distance used_l 0,
             { s1 with tank := Function.update s1.tank me (s1.tank me - used_l) })
          else
            let borrowed := used_l - s1.tank me
            let t1 := Function.update s1.tank me 0
            let t2 := Function.update t1 other (t1 other - borrowed)
            (.ok distance used_l borrowed,
             { s1 with tank := t2,
                       debt := Function.update s1.debt me (s1.debt me + borrowed) })

/-- `fill` handler: requires `liters > 0` and `total_cost > 0`; sets the
price, clears the filler's own debt first (crediting the cleared liters to
the other tank), and credits the remainder to the filler's own tank. -/
def fill (uid : String) (liters total_cost : ℚ) (s : LState) : FillResult × LState :=
  match s.users uid with
  | none => (.notRegistered, s)
  | some bucket =>
    if liters ≤ 0 ∨ total_cost ≤ 0 then (.invalidValue, s)
    else
      let price := total_cost / liters
      let s1 : LState := { s with lastPricePerLiter := price }
      let other := bucket.other
      let clear_l := min liters (s1.debt bucket)
      let s2 : LState :=
        if clear_l > 0 then
          { s1 with debt := Function.update s1.debt bucket (s1.debt bucket - clear_l),
                    tank := Function.update s1.tank other (s1.tank other + clear_l) }
        else s1
      let remaining_liters := liters - clear_l
      let s3 : LState :=
        { s2 with tank := Function.update s2.tank bucket (s2.tank bucket + remaining_liters) }
      (.ok clear_l remaining_liters price, s3)

/-- `settle` handler: pure read; requires a positive last price. -/
def settle (uid : String) (s : LState) : SettleResult × LState :=
  match s.users uid with
  | none => (.notRegistered, s)
  | some bucket =>
    let price := s.lastPricePerLiter
    if price ≤ 0 then (.noPriceSet, s)
    else (.ok (s.debt bucket) (s.debt bucket * price), s)

/-- `pay` handler: `full` zeroes the debt (checked before any price use);
a cash amount requires a positive amount, a positive price, and debt of at
least `eps`, and clears `min(debt, amount / price)` liters. -/
def pay (uid : String) (arg : PayArg) (s : LState) : PayResult × LState :=
  match s.users uid with
  | none => (.notRegistered, s)
  | some bucket =>
    let price := s.lastPricePerLiter
    let other := bucket.other
    match arg with
    | .full =>
      let cleared_l := s.debt bucket
      if cleared_l ≤ 0 then (.noDebt, s)
      else
        (.okFull cleared_l,
         { s with debt := Function.update s.debt bucket 0,
                  tank := Function.update s.tank other (s.tank other + cleared_l) })
    | .cash amount =>
      if amount ≤ 0 then (.invalidValue, s)
      else if price ≤ 0 then (.noPriceSet, s)
      else
        let liters_to_clear := amount / price
        let debt_before := s.debt bucket
        if debt_before < eps then (.noDebt, s)
        else
          let actual_cleared_l := min debt_before liters_to_clear
          (.okCash actual_cleared_l (debt_before - actual_cleared_l),
           { s with debt := Function.update s.debt bucket (s.debt bucket - actual_cleared_l),
                    tank := Function.update s.tank other (s.tank other + actual_cleared_l) })

/-- `reset` handler: replaces the whole state with a fresh default state. -/
def reset (_s : LState) : LState := initState

/-- One bot command at the engine level (`status` and `settle` are read-only
and keep the state; `status` needs no arguments beyond the caller). -/
inductive Op where
  | register (uid name : String)
  | setMileage (uid : String) (kmpl : ℚ)
  | rideStart (uid : String) (km : ℚ)
  | rideEnd (uid : String) (km : ℚ)
  | fill (uid : String) (liters totalCost : ℚ)
  | settle (uid : String)
  | pay (uid : String) (arg : PayArg)
  | status (uid : String)
  | reset

/-- State transition of one command (`status` only reads, so it is the
identity on the state, as is the state component of `settle`). -/
def Op.apply : Op → LState → LState
  | .register uid name, s => (FuelBot.register uid name s).2
  | .setMileage uid kmpl, s => (FuelBot.set_mileage uid kmpl s).2
  | .rideStart uid km, s => (FuelBot.ride_start uid km s).2
  | .rideEnd uid km, s => (FuelBot.ride_end uid km s).2
  | .fill uid l c, s => (FuelBot.fill uid l c s).2
  | .settle uid, s => (FuelBot.settle uid s).2
  | .pay uid arg, s => (FuelBot.pay uid arg s).2
  | .status _, s => s
  | .reset, s => FuelBot.reset s

/-- States reachable from the fresh initial state by bot commands. -/
inductive Reachable : LState → Prop where
  | init : Reachable initState
  | step (op : Op) {s : LState} : Reachable s → Reachable (op.apply s)

/-- Total liters currently held in the two tanks. -/
def tankTotal (s : LState) : ℚ := s.tank .aditya + s.tank .archit

/-- Change of `tankTotal` caused by one command, as the conservation
property describes it: a successful fill adds exactly the filled liters, a
successful ride-end removes exactly the used liters, a successful payment
adds exactly the cleared debt liters, `reset` discards everything, and
every other command (and every rejection) leaves the total unchanged. -/
def tankDelta (op : Op) (s : LState) : ℚ :=
  match op with
  | .fill uid l c =>
    match (fill uid l c s).1 with
    | .ok _ _ _ => l
    | _ => 0
  | .rideEnd uid km =>
    match (ride_end uid km s).1 with
    | .ok _ u _ => -u
    | _ => 0
  | .pay uid arg =>
    match (pay uid arg s).1 with
    | .okFull c => c
    | .okCash c _ => c
    | _ => 0
  | .reset => -tankTotal s
  | _ => 0

/-- Ledger invariant satisfied by every reachable state: each debt is
non-negative and each tank can dip at most `eps` below zero (the ride-end
fuel check tolerates an overdraw of up to `eps`). -/
def Inv (s : LState) : Prop :=
  ∀ b : Bucket, -eps ≤ s.tank b ∧ 0 ≤ s.debt b

/-! Concrete states used to exercise the theorems below. -/

/-- A reachable state with one user registered to the `aditya` bucket. -/
def regA : LState := Op.apply (.register "a" "Aditya") initState

/-- Reachable scenario, step 1: a second user registered to `archit`. -/
def payDemo1 : LState := Op.apply (.register "b" "Archit") regA

/-- Step 2: `archit` fills 10 L for a total cost of 1000. -/
def payDemo2 : LState := Op.apply (.fill "b" 10 1000) payDemo1

/-- Step 3: `aditya` starts a ride at odometer 0. -/
def payDemo3 : LState := Op.apply (.rideStart "a" 0) payDemo2

/-- Step 4: `aditya` ends the ride at km 40 (1 L used, all borrowed),
leaving `tank = {aditya: 0, archit: 9}` and `debt[aditya] = 1`. -/
def payDemo4 : LState := Op.apply (.rideEnd "a" 40) payDemo3

/-- Reachable tiny-ride scenario, step 1: ride started with both tanks
empty. -/
def tinyRide1 : LState := Op.apply (.rideStart "a" 0) regA

/-- Step 2: an `eps`-tolerated ride of 3e-8 km, which overdraws the other
(empty) tank by 7.5e-10 L. -/
def tinyRide2 : LState := Op.apply (.rideEnd "a" (3 / 100000000)) tinyRide1

/-- A state with a pending ride start and a non-positive mileage. -/
def noMileageState : LState where
  users := fun u => if u = "u" then some .aditya else none
  tank := fun _ => 0
  debt := fun _ => 0
  rideStart := fun u => if u = "u" then some 5 else none
  mileage := 0
  lastPricePerLiter := 0

/-- A generic populated state: two registered users, fuel in both tanks,
`aditya` owing 2 L, a pending ride start for `aditya`, and a price of 100. -/
def demoState : LState where
  users := fun u => if u = "a" then some .aditya else if u = "b" then some .archit else none
  tank := fun b => match b with | .aditya => 4 | .archit => 7
  debt := fun b => match b with | .aditya => 2 | .archit => 0
  rideStart := fun u => if u = "a" then some 100 else none
  mileage := 40
  lastPricePerLiter := 100

/-- A state with positive debt but no price reference yet. -/
def zeroPriceDebtState : LState where
  users := fun u => if u = "a" then some .aditya else none
  tank := fun _ => 0
  debt := fun b => match b with | .aditya => 3 | .archit => 0
  rideStart := fun _ => none
  mileage := 40
  lastPricePerLiter := 0

end FuelBot

namespace FuelBot

theorem Bucket.other_ne (b : Bucket) : b.other ≠ b := by
  cases b <;> simp [Bucket.other]

theorem Bucket.ne_other (b : Bucket) : b ≠ b.other := by
  cases b <;> simp [Bucket.other]

theorem Bucket.cases_eq (b c : Bucket) : c = b ∨ c = b.other := by
  cases b <;> cases c <;> simp [Bucket.other]

theorem eps_pos : 0 < eps := by norm_num [eps]

theorem sum_update_both (t : Bucket → ℚ) (b : Bucket) (v : ℚ) :
    Function.update t b v .aditya + Function.update t b v .archit =
      t .aditya + t .archit + (v - t b) := by
  cases b
  · simp [Function.update]
    ring
  · simp [Function.update]

/-! Branch-characterization lemmas for `ride_end`, one per exit path of the
source handler. -/

theorem ride_end_not_registered (uid : String) (end_km : ℚ) (s : LState)
    (hu : s.users uid = none) : ride_end uid end_km s = (.notRegistered, s) := by
  simp only [ride_end, hu]

theorem ride_end_no_ride (uid : String) (end_km : ℚ) (s : LState) (b : Bucket)
    (hu : s.users uid = some b) (hr : s.rideStart uid = none) :
    ride_end uid end_km s = (.noRideStarted, s) := by
  simp only [ride_end, hu, hr]

theorem ride_end_neg_distance (uid : String) (end_km : ℚ) (s : LState) (b : Bucket) (k : ℚ)
    (hu : s.users uid = some b) (hr : s.rideStart uid = some k)
    (hd : end_km - k < 0) : ride_end uid end_km s = (.negativeDistance, s) := by
  simp only [ride_end, hu, hr]
  rw [if_pos hd]
  refine Prod.ext rfl ?_
  ext1
  · rfl
  · rfl
  · rfl
  · show Function.update (Function.update s.rideStart uid none) uid (some k) = s.rideStart
    rw [Function.update_idem, ← hr, Function.update_eq_self]
  · rfl
  · rfl

theorem ride_end_no_mileage (uid : String) (end_km : ℚ) (s : LState) (b : Bucket) (k : ℚ)
    (hu : s.users uid = some b) (hr : s.rideStart uid = some k)
    (hd : ¬ end_km - k < 0) (hm : s.mileage ≤ 0) :
    ride_end uid end_km s =
      (.noMileage, { s with rideStart := Function.update s.rideStart uid none }) := by
  simp only [ride_end, hu, hr]
  rw [if_neg hd, if_pos hm]

theorem ride_end_insufficient (uid : String) (end_km : ℚ) (s : LState) (b : Bucket) (k : ℚ)
    (hu : s.users uid = some b) (hr : s.rideStart uid = some k)
    (hd : ¬ end_km - k < 0) (hm : ¬ s.mileage ≤ 0)
    (hf : (end_km - k) / s.mileage > s.tank b + s.tank b.other + eps) :
    ride_end uid end_km s =
      (.insufficientFuel ((end_km - k) / s.mileage) (s.tank b + s.tank b.other), s) := by
  simp only [ride_end, hu, hr]
  rw [if_neg hd, if_neg hm, if_pos hf]
  refine Prod.ext rfl ?_
  ext1
  · rfl
  · rfl
  · rfl
  · show Function.update (Function.update s.rideStart uid none) uid (some k) = s.rideStart
    rw [Function.update_idem, ← hr, Function.update_eq_self]
  · rfl
  · rfl

theorem ride_end_own_tank (uid : String) (end_km : ℚ) (s : LState) (b : Bucket) (k : ℚ)
    (hu : s.users uid = some b) (hr : s.rideStart uid = some k)
    (hd : ¬ end_km - k < 0) (hm : ¬ s.mileage ≤ 0)
    (hf : ¬ (end_km - k) / s.mileage > s.tank b + s.tank b.other + eps)
    (ht : s.tank b ≥ (end_km - k) / s.mileage) :
    ride_end uid end_km s =
      (.ok (end_km - k) ((end_km - k) / s.mileage) 0,
       { s with rideStart := Function.update s.rideStart uid none,
                tank := Function.update s.tank b (s.tank b - (end_km - k) / s.mileage) }) := by
  simp only [ride_end, hu, hr]
  rw [if_neg hd, if_neg hm, if_neg hf, if_pos ht]

theorem ride_end_borrow (uid : String) (end_km : ℚ) (s : LState) (b : Bucket) (k : ℚ)
    (hu : s.users uid = some b) (hr : s.rideStart uid = some k)
    (hd : ¬ end_km - k < 0) (hm : ¬ s.mileage ≤ 0)
    (hf : ¬ (end_km - k) / s.mileage > s.tank b + s.tank b.other + eps)
    (ht : ¬ s.tank b ≥ (end_km - k) / s.mileage) :
    ride_end uid end_km s =
      (.ok (end_km - k) ((end_km - k) / s.mileage) ((end_km - k) / s.mileage - s.tank b),
       { s with rideStart := Function.update s.rideStart uid none,
                tank := Function.update (Function.update s.tank b 0) b.other
                  (Function.update s.tank b 0 b.other -
                    ((end_km - k) / s.mileage - s.tank b)),
                debt := Function.update s.debt b
                  (s.debt b + ((end_km - k) / s.mileage - s.tank b)) }) := by
  simp only [ride_end, hu, hr]
  rw [if_neg hd, if_neg hm, if_neg hf, if_neg ht]

/-! Branch-characterization lemmas for the remaining handlers. -/

theorem register_invalid (uid name : String) (s : LState)
    (hn : parseBucket name = none) : register uid name s = (.invalidBucket, s) := by
  simp only [register, hn]

theorem register_ok (uid name : String) (s : LState) (b : Bucket)
    (hn : parseBucket name = some b) :
    register uid name s = (.ok, { s with users := Function.update s.users uid (some b) }) := by
  simp only [register, hn]

theorem set_mileage_not_registered (uid : String) (kmpl : ℚ) (s : LState)
    (hu : s.users uid = none) : set_mileage uid kmpl s = (.notRegistered, s) := by
  simp only [set_mileage, hu]

theorem set_mileage_invalid (uid : String) (kmpl : ℚ) (s : LState) (b : Bucket)
    (hu : s.users uid = some b) (hk : kmpl ≤ 0) :
    set_mileage uid kmpl s = (.invalidValue, s) := by
  simp only [set_mileage, hu]
  rw [if_pos hk]

theorem set_mileage_ok (uid : String) (kmpl : ℚ) (s : LState) (b : Bucket)
    (hu : s.users uid = some b) (hk : ¬ kmpl ≤ 0) :
    set_mileage uid kmpl s = (.ok, { s with mileage := kmpl }) := by
  simp only [set_mileage, hu]
  rw [if_neg hk]

theorem ride_start_not_registered (uid : String) (km : ℚ) (s : LState)
    (hu : s.users uid = none) : ride_start uid km s = (.notRegistered, s) := by
  simp only [ride_start, hu]

theorem ride_start_ok (uid : String) (km : ℚ) (s : LState) (b : Bucket)
    (hu : s.users uid = some b) :
    ride_start uid km s =
      (.ok, { s with rideStart := Function.update s.rideStart uid (some km) }) := by
  simp only [ride_start, hu]

theorem fill_not_registered (uid : String) (l c : ℚ) (s : LState)
    (hu : s.users uid = none) : fill uid l c s = (.notRegistered, s) := by
  simp only [fill, hu]

theorem fill_invalid (uid : String) (l c : ℚ) (s : LState) (b : Bucket)
    (hu : s.users uid = some b) (h : l ≤ 0 ∨ c ≤ 0) :
    fill uid l c s = (.invalidValue, s) := by
  simp only [fill, hu]
  rw [if_pos h]

theorem fill_ok_clearing (uid : String) (l c : ℚ) (s : LState) (b : Bucket)
    (hu : s.users uid = some b) (h : ¬ (l ≤ 0 ∨ c ≤ 0)) (hcl : 0 < min l (s.debt b)) :
    fill uid l c s =
      (.ok (min l (s.debt b)) (l - min l (s.debt b)) (c / l),
       { s with lastPricePerLiter := c / l,
                debt := Function.update s.debt b (s.debt b - min l (s.debt b)),
                tank := Function.update
                  (Function.update s.tank b.other (s.tank b.other + min l (s.debt b))) b
                  (Function.update s.tank b.other (s.tank b.other + min l (s.debt b)) b +
                    (l - min l (s.debt b))) }) := by
  simp only [fill, hu]
  rw [if_neg h, if_pos hcl]

theorem fill_ok_no_clear (uid : String) (l c : ℚ) (s : LState) (b : Bucket)
    (hu : s.users uid = some b) (h : ¬ (l ≤ 0 ∨ c ≤ 0)) (hcl : ¬ 0 < min l (s.debt b)) :
    fill uid l c s =
      (.ok (min l (s.debt b)) (l - min l (s.debt b)) (c / l),
       { s with lastPricePerLiter := c / l,
                tank := Function.update s.tank b (s.tank b + (l - min l (s.debt b))) }) := by
  simp only [fill, hu]
  rw [if_neg h, if_neg hcl]

theorem settle_not_registered (uid : String) (s : LState)
    (hu : s.users uid = none) : settle uid s = (.notRegistered, s) := by
  simp only [settle, hu]

theorem settle_no_price (uid : String) (s : LState) (b : Bucket)
    (hu : s.users uid = some b) (hp : s.lastPricePerLiter ≤ 0) :
    settle uid s = (.noPriceSet, s) := by
  simp only [settle, hu]
  rw [if_pos hp]

theorem settle_ok (uid : String) (s : LState) (b : Bucket)
    (hu : s.users uid = some b) (hp : ¬ s.lastPricePerLiter ≤ 0) :
    settle uid s = (.ok (s.debt b) (s.debt b * s.lastPricePerLiter), s) := by
  simp only [settle, hu]
  rw [if_neg hp]

theorem pay_not_registered (uid : String) (arg : PayArg) (s : LState)
    (hu : s.users uid = none) : pay uid arg s = (.notRegistered, s) := by
  cases arg <;> simp only [pay, hu]

theorem pay_full_no_debt (uid : String) (s : LState) (b : Bucket)
    (hu : s.users uid = some b) (hd : s.debt b ≤ 0) :
    pay uid .full s = (.noDebt, s) := by
  simp only [pay, hu]
  rw [if_pos hd]

theorem pay_full_ok (uid : String) (s : LState) (b : Bucket)
    (hu : s.users uid = some b) (hd : ¬ s.debt b ≤ 0) :
    pay uid .full s =
      (.okFull (s.debt b),
       { s with debt := Function.update s.debt b 0,
                tank := Function.update s.tank b.other (s.tank b.other + s.debt b) }) := by
  simp only [pay, hu]
  rw [if_neg hd]

theorem pay_cash_invalid (uid : String) (amount : ℚ) (s : LState) (b : Bucket)
    (hu : s.users uid = some b) (ha : amount ≤ 0) :
    pay uid (.cash amount) s = (.invalidValue, s) := by
  simp only [pay, hu]
  rw [if_pos ha]

theorem pay_cash_no_price (uid : String) (amount : ℚ) (s : LState) (b : Bucket)
    (hu : s.users uid = some b) (ha : ¬ amount ≤ 0) (hp : s.lastPricePerLiter ≤ 0) :
    pay uid (.cash amount) s = (.noPriceSet, s) := by
  simp only [pay, hu]
  rw [if_neg ha, if_pos hp]

theorem pay_cash_no_debt (uid : String) (amount : ℚ) (s : LState) (b : Bucket)
    (hu : s.users uid = some b) (ha : ¬ amount ≤ 0) (hp : ¬ s.lastPricePerLiter ≤ 0)
    (hd : s.debt b < eps) : pay uid (.cash amount) s = (.noDebt, s) := by
  simp only [pay, hu]
  rw [if_neg ha, if_neg hp, if_pos hd]

theorem pay_cash_ok (uid : String) (amount : ℚ) (s : LState) (b : Bucket)
    (hu : s.users uid = some b) (ha : ¬ amount ≤ 0) (hp : ¬ s.lastPricePerLiter ≤ 0)
    (hd : ¬ s.debt b < eps) :
    pay uid (.cash amount) s =
      (.okCash (min (s.debt b) (amount / s.lastPricePerLiter))
        (s.debt b - min (s.debt b) (amount / s.lastPricePerLiter)),
       { s with debt := Function.update s.debt b
                  (s.debt b - min (s.debt b) (amount / s.lastPricePerLiter)),
                tank := Function.update s.tank b.other
                  (s.tank b.other + min (s.debt b) (amount / s.lastPricePerLiter)) }) := by
  simp only [pay, hu]
  rw [if_neg ha, if_neg hp, if_neg hd]

/-! Preservation of the ledger invariant by every command. -/

theorem inv_initState : Inv initState := by
  intro b
  constructor
  · show -eps ≤ 0
    norm_num [eps]
  · exact le_refl 0

theorem inv_register (uid name : String) (s : LState) (h : Inv s) :
    Inv (register uid name s).2 := by
  rcases hn : parseBucket name with _ | b
  · rw [register_invalid uid name s hn]
    exact h
  · rw [register_ok uid name s b hn]
    exact h

theorem inv_set_mileage (uid : String) (kmpl : ℚ) (s : LState) (h : Inv s) :
    Inv (set_mileage uid kmpl s).2 := by
  rcases hu : s.users uid with _ | b
  · rw [set_mileage_not_registered uid kmpl s hu]
    exact h
  · by_cases hk : kmpl ≤ 0
    · rw [set_mileage_invalid uid kmpl s b hu hk]
      exact h
    · rw [set_mileage_ok uid kmpl s b hu hk]
      exact h

theorem inv_ride_start (uid : String) (km : ℚ) (s : LState) (h : Inv s) :
    Inv (ride_start uid km s).2 := by
  rcases hu : s.users uid with _ | b
  · rw [ride_start_not_registered uid km s hu]
    exact h
  · rw [ride_start_ok uid km s b hu]
    exact h

theorem inv_settle (uid : String) (s : LState) (h : Inv s) :
    Inv (settle uid s).2 := by
  rcases hu : s.users uid with _ | b
  · rw [settle_not_registered uid s hu]
    exact h
  · by_cases hp : s.lastPricePerLiter ≤ 0
    · rw [settle_no_price uid s b hu hp]
      exact h
    · rw [settle_ok uid s b hu hp]
      exact h

theorem inv_ride_end (uid : String) (km : ℚ) (s : LState) (h : Inv s) :
    Inv (ride_end uid km s).2 := by
  rcases hu : s.users uid with _ | b
  · rw [ride_end_not_registered uid km s hu]
    exact h
  · rcases hr : s.rideStart uid with _ | k
    · rw [ride_end_no_ride uid km s b hu hr]
      exact h
    · by_cases hd : km - k < 0
      · rw [ride_end_neg_distance uid km s b k hu hr hd]
        exact h
      · by_cases hm : s.mileage ≤ 0
        · rw [ride_end_no_mileage uid km s b k hu hr hd hm]
          exact h
        · by_cases hf : (km - k) / s.mileage > s.tank b + s.tank b.other + eps
          · rw [ride_end_insufficient uid km s b k hu hr hd hm hf]
            exact h
          · have hused : 0 ≤ (km - k) / s.mileage :=
              div_nonneg (not_lt.mp hd) (le_of_lt (not_le.mp hm))
            by_cases ht : s.tank b ≥ (km - k) / s.mileage
            · rw [ride_end_own_tank uid km s b k hu hr hd hm hf ht]
              intro c
              refine ⟨?_, (h c).2⟩
              rcases eq_or_ne c b with rfl | hc
              · show -eps ≤ Function.update s.tank c (s.tank c - (km - k) / s.mileage) c
                rw [Function.update_same]
                have := eps_pos
                linarith
              · show -eps ≤ Function.update s.tank b (s.tank b - (km - k) / s.mileage) c
                rw [Function.update_noteq hc]
                exact (h c).1
            · rw [ride_end_borrow uid km s b k hu hr hd hm hf ht]
              intro c
              have hfle : (km - k) / s.mileage ≤ s.tank b + s.tank b.other + eps :=
                not_lt.mp hf
              constructor
              · rcases Bucket.cases_eq b c with rfl | rfl
                · show -eps ≤ Function.update (Function.update s.tank c 0) c.other
                    (Function.update s.tank c 0 c.other - ((km - k) / s.mileage - s.tank c)) c
                  rw [Function.update_noteq (Bucket.other_ne c).symm, Function.update_same]
                  have := eps_pos
                  linarith
                · show -eps ≤ Function.update (Function.update s.tank b 0) b.other
                    (Function.update s.tank b 0 b.other - ((km - k) / s.mileage - s.tank b))
                    b.other
                  rw [Function.update_same, Function.update_noteq (Bucket.other_ne b)]
                  linarith
              · rcases eq_or_ne c b with rfl | hc
                · show 0 ≤ Function.update s.debt c (s.debt c + ((km - k) / s.mileage - s.tank c)) c
                  rw [Function.update_same]
                  have h1 := (h c).2
                  have h2 : s.tank c < (km - k) / s.mileage := not_le.mp ht
                  linarith
                · show 0 ≤ Function.update s.debt b (s.debt b + ((km - k) / s.mileage - s.tank b)) c
                  rw [Function.update_noteq hc]
                  exact (h c).2

theorem inv_fill (uid : String) (l c : ℚ) (s : LState) (h : Inv s) :
    Inv (fill uid l c s).2 := by
  rcases hu : s.users uid with _ | b
  · rw [fill_not_registered uid l c s hu]
    exact h
  · by_cases hv : l ≤ 0 ∨ c ≤ 0
    · rw [fill_invalid uid l c s b hu hv]
      exact h
    · have hrem : 0 ≤ l - min l (s.debt b) := by
        have := min_le_left l (s.debt b)
        linarith
      have ht1 := (h .aditya).1
      have ht2 := (h .archit).1
      have hd1 := (h .aditya).2
      have hd2 := (h .archit).2
      have hmr1 := min_le_right l (s.debt .aditya)
      have hmr2 := min_le_right l (s.debt .archit)
      by_cases hcl : 0 < min l (s.debt b)
      · rw [fill_ok_clearing uid l c s b hu hv hcl]
        intro d
        constructor
        · cases b <;> cases d <;>
            simp +decide [Function.update, Bucket.other] <;> linarith
        · cases b <;> cases d <;>
            simp +decide [Function.update, Bucket.other] <;> linarith
      · rw [fill_ok_no_clear uid l c s b hu hv hcl]
        intro d
        constructor
        · cases b <;> cases d <;>
            simp +decide [Function.update, Bucket.other] <;> linarith
        · cases b <;> cases d <;>
            simp +decide [Function.update, Bucket.other] <;> linarith

theorem inv_pay (uid : String) (arg : PayArg) (s : LState) (h : Inv s) :
    Inv (pay uid arg s).2 := by
  rcases hu : s.users uid with _ | b
  · rw [pay_not_registered uid arg s hu]
    exact h
  · cases arg with
    | full =>
      by_cases hd : s.debt b ≤ 0
      · rw [pay_full_no_debt uid s b hu hd]
        exact h
      · rw [pay_full_ok uid s b hu hd]
        intro d
        constructor
        · rcases eq_or_ne d b.other with rfl | hne
          · show -eps ≤ Function.update s.tank b.other (s.tank b.other + s.debt b) b.other
            rw [Function.update_same]
            have := (h b.other).1
            linarith
          · show -eps ≤ Function.update s.tank b.other (s.tank b.other + s.debt b) d
            rw [Function.update_noteq hne]
            exact (h d).1
        · rcases eq_or_ne d b with rfl | hne
          · show 0 ≤ Function.update s.debt d 0 d
            rw [Function.update_same]
          · show 0 ≤ Function.update s.debt b 0 d
            rw [Function.update_noteq hne]
            exact (h d).2
    | cash amount =>
      by_cases ha : amount ≤ 0
      · rw [pay_cash_invalid uid amount s b hu ha]
        exact h
      · by_cases hp : s.lastPricePerLiter ≤ 0
        · rw [pay_cash_no_price uid amount s b hu ha hp]
          exact h
        · by_cases hd : s.debt b < eps
          · rw [pay_cash_no_debt uid amount s b hu ha hp hd]
            exact h
          · rw [pay_cash_ok uid amount s b hu ha hp hd]
            have hmin0 : 0 ≤ min (s.debt b) (amount / s.lastPricePerLiter) := by
              refine le_min ?_ ?_
              · have := eps_pos
                have := not_lt.mp hd
                linarith
              · exact div_nonneg (le_of_lt (not_le.mp ha)) (le_of_lt (not_le.mp hp))
            intro d
            constructor
            · rcases eq_or_ne d b.other with rfl | hne
              · show -eps ≤ Function.update s.tank b.other
                  (s.tank b.other + min (s.debt b) (amount / s.lastPricePerLiter)) b.other
                rw [Function.update_same]
                have := (h b.other).1
                linarith
              · show -eps ≤ Function.update s.tank b.other
                  (s.tank b.other + min (s.debt b) (amount / s.lastPricePerLiter)) d
                rw [Function.update_noteq hne]
                exact (h d).1
            · rcases eq_or_ne d b with rfl | hne
              · show 0 ≤ Function.update s.debt d
                  (s.debt d - min (s.debt d) (amount / s.lastPricePerLiter)) d
                rw [Function.update_same]
                have := min_le_left (s.debt d) (amount / s.lastPricePerLiter)
                linarith
              · show 0 ≤ Function.update s.debt b
                  (s.debt b - min (s.debt b) (amount / s.lastPricePerLiter)) d
                rw [Function.update_noteq hne]
                exact (h d).2

theorem inv_apply (op : Op) (s : LState) (h : Inv s) : Inv (op.apply s) := by
  cases op with
  | register uid name => exact inv_register uid name s h
  | setMileage uid kmpl => exact inv_set_mileage uid kmpl s h
  | rideStart uid km => exact inv_ride_start uid km s h
  | rideEnd uid km => exact inv_ride_end uid km s h
  | fill uid l c => exact inv_fill uid l c s h
  | settle uid => exact inv_settle uid s h
  | pay uid arg => exact inv_pay uid arg s h
  | status uid => exact h
  | reset => exact inv_initState

theorem inv_of_reachable {s : LState} (h : Reachable s) : Inv s := by
  induction h with
  | init => exact inv_initState
  | step op _ ih => exact inv_apply op _ ih

/-! Rejections other than ride-end's `noMileage` leave the state unchanged. -/

theorem ride_end_reject_cases (uid : String) (e : ℚ) (s : LState) :
    ((ride_end uid e s).1 = .notRegistered → (ride_end uid e s).2 = s) ∧
    ((ride_end uid e s).1 = .noRideStarted → (ride_end uid e s).2 = s) ∧
    ((ride_end uid e s).1 = .negativeDistance → (ride_end uid e s).2 = s) ∧
    (∀ u a, (ride_end uid e s).1 = .insufficientFuel u a → (ride_end uid e s).2 = s) := by
  rcases hu : s.users uid with _ | b
  · rw [ride_end_not_registered uid e s hu]
    simp
  · rcases hr : s.rideStart uid with _ | k
    · rw [ride_end_no_ride uid e s b hu hr]
      simp
    · by_cases hd : e - k < 0
      · rw [ride_end_neg_distance uid e s b k hu hr hd]
        simp
      · by_cases hm : s.mileage ≤ 0
        · rw [ride_end_no_mileage uid e s b k hu hr hd hm]
          simp
        · by_cases hf : (e - k) / s.mileage > s.tank b + s.tank b.other + eps
          · rw [ride_end_insufficient uid e s b k hu hr hd hm hf]
            simp
          · by_cases ht : s.tank b ≥ (e - k) / s.mileage
            · rw [ride_end_own_tank uid e s b k hu hr hd hm hf ht]
              simp
            · rw [ride_end_borrow uid e s b k hu hr hd hm hf ht]
              simp

theorem register_reject (uid name : String) (s : LState) :
    (register uid name s).1 = .invalidBucket → (register uid name s).2 = s := by
  rcases hn : parseBucket name with _ | b
  · rw [register_invalid uid name s hn]
    simp
  · rw [register_ok uid name s b hn]
    simp

theorem set_mileage_reject (uid : String) (kmpl : ℚ) (s : LState) :
    (set_mileage uid kmpl s).1 ≠ .ok → (set_mileage uid kmpl s).2 = s := by
  rcases hu : s.users uid with _ | b
  · rw [set_mileage_not_registered uid kmpl s hu]
    simp
  · by_cases hk : kmpl ≤ 0
    · rw [set_mileage_invalid uid kmpl s b hu hk]
      simp
    · rw [set_mileage_ok uid kmpl s b hu hk]
      simp

theorem ride_start_reject (uid : String) (km : ℚ) (s : LState) :
    (ride_start uid km s).1 ≠ .ok → (ride_start uid km s).2 = s := by
  rcases hu : s.users uid with _ | b
  · rw [ride_start_not_registered uid km s hu]
    simp
  · rw [ride_start_ok uid km s b hu]
    simp

theorem fill_reject (uid : String) (l c : ℚ) (s : LState) :
    (fill uid l c s).1 = .invalidValue ∨ (fill uid l c s).1 = .notRegistered →
      (fill uid l c s).2 = s := by
  rcases hu : s.users uid with _ | b
  · rw [fill_not_registered uid l c s hu]
    simp
  · by_cases hv : l ≤ 0 ∨ c ≤ 0
    · rw [fill_invalid uid l c s b hu hv]
      simp
    · by_cases hcl : 0 < min l (s.debt b)
      · rw [fill_ok_clearing uid l c s b hu hv hcl]
        simp
      · rw [fill_ok_no_clear uid l c s b hu hv hcl]
        simp

theorem settle_state_eq (uid : String) (s : LState) : (settle uid s).2 = s := by
  rcases hu : s.users uid with _ | b
  · rw [settle_not_registered uid s hu]
  · by_cases hp : s.lastPricePerLiter ≤ 0
    · rw [settle_no_price uid s b hu hp]
    · rw [settle_ok uid s b hu hp]

theorem pay_reject (uid : String) (arg : PayArg) (s : LState) :
    (pay uid arg s).1 = .notRegistered ∨ (pay uid arg s).1 = .noDebt ∨
      (pay uid arg s).1 = .noPriceSet ∨ (pay uid arg s).1 = .invalidValue →
      (pay uid arg s).2 = s := by
  rcases hu : s.users uid with _ | b
  · rw [pay_not_registered uid arg s hu]
    simp
  · cases arg with
    | full =>
      by_cases hd : s.debt b ≤ 0
      · rw [pay_full_no_debt uid s b hu hd]
        simp
      · rw [pay_full_ok uid s b hu hd]
        simp
    | cash amount =>
      by_cases ha : amount ≤ 0
      · rw [pay_cash_invalid uid amount s b hu ha]
        simp
      · by_cases hp : s.lastPricePerLiter ≤ 0
        · rw [pay_cash_no_price uid amount s b hu ha hp]
          simp
        · by_cases hd : s.debt b < eps
          · rw [pay_cash_no_debt uid amount s b hu ha hp hd]
            simp
          · rw [pay_cash_ok uid amount s b hu ha hp hd]
            simp

/-- C1 (amended): for every reachable state, the total liters in the two
tanks change by exactly `tankDelta`: a successful `fill` adds exactly the
filled liters (its debt-clearing part neither creates nor destroys liters in
net), a successful `endRide` removes exactly `usedLiters`, a successful
`pay` adds exactly the cleared debt liters to the lender's tank, `reset`
clears the tanks, and every other operation or rejection leaves the total
unchanged.  (The original claim wrongly said only `fill` can increase the
total; `pay` also increases it.) -/
theorem C1_conservation_amended (s : LState) (hs : Reachable s) (op : Op) :
    tankTotal (op.apply s) = tankTotal s + tankDelta op s := by
  cases op with
  | register uid name =>
    simp only [Op.apply, tankDelta]
    rcases hn : parseBucket name with _ | b
    · rw [register_invalid uid name s hn]
      simp
    · rw [register_ok uid name s b hn]
      simp [tankTotal]
  | setMileage uid kmpl =>
    simp only [Op.apply, tankDelta]
    rcases hu : s.users uid with _ | b
    · rw [set_mileage_not_registered uid kmpl s hu]
      simp
    · by_cases hk : kmpl ≤ 0
      · rw [set_mileage_invalid uid kmpl s b hu hk]
        simp
      · rw [set_mileage_ok uid kmpl s b hu hk]
        simp [tankTotal]
  | rideStart uid km =>
    simp only [Op.apply, tankDelta]
    rcases hu : s.users uid with _ | b
    · rw [ride_start_not_registered uid km s hu]
      simp
    · rw [ride_start_ok uid km s b hu]
      simp [tankTotal]
  | rideEnd uid km =>
    simp only [Op.apply, tankDelta]
    rcases hu : s.users uid with _ | b
    · rw [ride_end_not_registered uid km s hu]
      simp
    · rcases hr : s.rideStart uid with _ | k
      · rw [ride_end_no_ride uid km s b hu hr]
        simp
      · by_cases hd : km - k < 0
        · rw [ride_end_neg_distance uid km s b k hu hr hd]
          simp
        · by_cases hm : s.mileage ≤ 0
          · rw [ride_end_no_mileage uid km s b k hu hr hd hm]
            simp [tankTotal]
          · by_cases hf : (km - k) / s.mileage > s.tank b + s.tank b.other + eps
            · rw [ride_end_insufficient uid km s b k hu hr hd hm hf]
              simp
            · by_cases ht : s.tank b ≥ (km - k) / s.mileage
              · rw [ride_end_own_tank uid km s b k hu hr hd hm hf ht]
                cases b <;>
                  (simp +decide [tankTotal, Function.update, Bucket.other]; ring)
              · rw [ride_end_borrow uid km s b k hu hr hd hm hf ht]
                cases b <;>
                  (simp +decide [tankTotal, Function.update, Bucket.other]; ring)
  | fill uid l c =>
    simp only [Op.apply, tankDelta]
    rcases hu : s.users uid with _ | b
    · rw [fill_not_registered uid l c s hu]
      simp
    · by_cases hv : l ≤ 0 ∨ c ≤ 0
      · rw [fill_invalid uid l c s b hu hv]
        simp
      · by_cases hcl : 0 < min l (s.debt b)
        · rw [fill_ok_clearing uid l c s b hu hv hcl]
          cases b <;>
            (simp +decide [tankTotal, Function.update, Bucket.other]; ring)
        · have hdeb : 0 ≤ s.debt b := (inv_of_reachable hs b).2
          have hl : 0 < l := by
            rcases not_or.mp hv with ⟨h1, _⟩
            exact lt_of_not_le h1
          have hcl0 : min l (s.debt b) = 0 :=
            le_antisymm (not_lt.mp hcl) (le_min (le_of_lt hl) hdeb)
          rw [fill_ok_no_clear uid l c s b hu hv hcl]
          rw [hcl0]
          cases b <;>
            (simp +decide [tankTotal, Function.update, Bucket.other]; ring)
  | settle uid =>
    simp only [Op.apply, tankDelta]
    rw [settle_state_eq uid s]
    simp
  | pay uid arg =>
    simp only [Op.apply, tankDelta]
    rcases hu : s.users uid with _ | b
    · rw [pay_not_registered uid arg s hu]
      simp
    · cases arg with
      | full =>
        by_cases hd : s.debt b ≤ 0
        · rw [pay_full_no_debt uid s b hu hd]
          simp
        · rw [pay_full_ok uid s b hu hd]
          cases b <;>
            (simp +decide [tankTotal, Function.update, Bucket.other]; ring)
      | cash amount =>
        by_cases ha : amount ≤ 0
        · rw [pay_cash_invalid uid amount s b hu ha]
          simp
        · by_cases hp : s.lastPricePerLiter ≤ 0
          · rw [pay_cash_no_price uid amount s b hu ha hp]
            simp
          · by_cases hd : s.debt b < eps
            · rw [pay_cash_no_debt uid amount s b hu ha hp hd]
              simp
            · rw [pay_cash_ok uid amount s b hu ha hp hd]
              cases b <;>
                (simp +decide [tankTotal, Function.update, Bucket.other]; ring)
  | status uid =>
    simp [Op.apply, tankDelta]
  | reset =>
    simp only [Op.apply, tankDelta, reset]
    show (0 : ℚ) + 0 = tankTotal s + -tankTotal s
    ring

/-- C1 counterexample: from the reachable state `payDemo4` (tank total 9 L,
`debt[aditya] = 1`), the successful operation `pay aditya full` raises the
tank total from 9 L to 10 L — the total liters in the two tanks increase
through a `pay`, not only through a `fill`, refuting the claim as stated. -/
theorem C1_counterexample :
    Reachable payDemo4 ∧ (pay "a" .full payDemo4).1 = .okFull 1 ∧
      tankTotal (Op.apply (.pay "a" .full) payDemo4) = 10 ∧ tankTotal payDemo4 = 9 := by
  refine ⟨?_, ?_, ?_, ?_⟩
  · exact Reachable.step (Op.rideEnd "a" 40)
      (Reachable.step (Op.rideStart "a" 0)
        (Reachable.step (Op.fill "b" 10 1000)
          (Reachable.step (Op.register "b" "Archit")
            (Reachable.step (Op.register "a" "Aditya") Reachable.init))))
  · norm_num +decide [payDemo4, payDemo3, payDemo2, payDemo1, regA, Op.apply, pay, fill,
      register, ride_start, ride_end, parseBucket, initState, Function.update, Bucket.other,
      eps, DEFAULT_MILEAGE]
  · norm_num +decide [tankTotal, payDemo4, payDemo3, payDemo2, payDemo1, regA, Op.apply, pay,
      fill, register, ride_start, ride_end, parseBucket, initState, Function.update,
      Bucket.other, eps, DEFAULT_MILEAGE]
  · norm_num +decide [tankTotal, payDemo4, payDemo3, payDemo2, payDemo1, regA, Op.apply, pay,
      fill, register, ride_start, ride_end, parseBucket, initState, Function.update,
      Bucket.other, eps, DEFAULT_MILEAGE]

/-- C1 witness: the amended conservation law applied to a concrete fill of
5 L on the reachable state `regA`, whose delta evaluates to exactly the
filled liters. -/
theorem C1_conservation_amended_witness :
    tankTotal (Op.apply (.fill "a" 5 500) regA) = tankTotal regA + tankDelta (.fill "a" 5 500) regA ∧
      tankDelta (.fill "a" 5 500) regA = 5 := by
  constructor
  · exact C1_conservation_amended regA
      (Reachable.step (Op.register "a" "Aditya") Reachable.init) (.fill "a" 5 500)
  · norm_num +decide [tankDelta, fill, regA, Op.apply, register, parseBucket, initState,
      Function.update, Bucket.other]

/-- C2 (amended): in every reachable state both debts are non-negative, and
both tanks are at least `-eps` (they can dip up to the `eps` tolerance below
zero, so the claimed `tank[b] >= 0` fails by at most `eps`). -/
theorem C2_nonneg_amended (s : LState) (hs : Reachable s) :
    ∀ b : Bucket, -eps ≤ s.tank b ∧ 0 ≤ s.debt b :=
  inv_of_reachable hs

/-- C2 counterexample: a reachable state with a strictly negative tank.
Registering, starting a ride at 0 and ending it at 3e-8 km with mileage 40
consumes 7.5e-10 L; the check `used > available + eps` (0 > 0 + 1e-9) does
not fire, and the empty `archit` tank is driven to -7.5e-10 L. -/
theorem C2_counterexample : Reachable tinyRide2 ∧ tinyRide2.tank .archit < 0 := by
  constructor
  · exact Reachable.step (Op.rideEnd "a" (3 / 100000000))
      (Reachable.step (Op.rideStart "a" 0)
        (Reachable.step (Op.register "a" "Aditya") Reachable.init))
  · norm_num +decide [tinyRide2, tinyRide1, regA, Op.apply, register, ride_start, ride_end,
      parseBucket, initState, Function.update, Bucket.other, eps, DEFAULT_MILEAGE]

/-- C2 witness: the amended non-negativity bounds at the initial state. -/
theorem C2_nonneg_amended_witness :
    -eps ≤ initState.tank .archit ∧ 0 ≤ initState.debt .archit :=
  C2_nonneg_amended initState Reachable.init .archit

/-- C3 (amended): every rejected operation leaves the entire ledger state
unchanged, except `endRide`'s NoMileage rejection: when the caller has a
pending ride start, the distance is non-negative and `mileageKmPerLiter <=
0`, the result is NoMileage but the popped pending ride start is NOT
restored — the resulting state is the original one with that pending ride
start removed (all other fields unchanged). -/
theorem C3_reject_purity_amended (s : LState) (uid : String) (end_km : ℚ) :
    (∀ b k, s.users uid = some b → s.rideStart uid = some k → ¬ end_km - k < 0 →
      s.mileage ≤ 0 →
      ride_end uid end_km s =
        (.noMileage, { s with rideStart := Function.update s.rideStart uid none })) ∧
    ((ride_end uid end_km s).1 = .notRegistered → (ride_end uid end_km s).2 = s) ∧
    ((ride_end uid end_km s).1 = .noRideStarted → (ride_end uid end_km s).2 = s) ∧
    ((ride_end uid end_km s).1 = .negativeDistance → (ride_end uid end_km s).2 = s) ∧
    (∀ u a, (ride_end uid end_km s).1 = .insufficientFuel u a →
      (ride_end uid end_km s).2 = s) ∧
    (∀ name, (register uid name s).1 = .invalidBucket → (register uid name s).2 = s) ∧
    (∀ kmpl, (set_mileage uid kmpl s).1 ≠ .ok → (set_mileage uid kmpl s).2 = s) ∧
    (∀ km, (ride_start uid km s).1 ≠ .ok → (ride_start uid km s).2 = s) ∧
    (∀ l c, (fill uid l c s).1 = .invalidValue ∨ (fill uid l c s).1 = .notRegistered →
      (fill uid l c s).2 = s) ∧
    (settle uid s).2 = s ∧
    (∀ arg, (pay uid arg s).1 = .notRegistered ∨ (pay uid arg s).1 = .noDebt ∨
      (pay uid arg s).1 = .noPriceSet ∨ (pay uid arg s).1 = .invalidValue →
      (pay uid arg s).2 = s) := by
  refine ⟨?_, (ride_end_reject_cases uid end_km s).1,
    (ride_end_reject_cases uid end_km s).2.1,
    (ride_end_reject_cases uid end_km s).2.2.1,
    (ride_end_reject_cases uid end_km s).2.2.2,
    fun name => register_reject uid name s,
    fun kmpl => set_mileage_reject uid kmpl s,
    fun km => ride_start_reject uid km s,
    fun l c => fill_reject uid l c s,
    settle_state_eq uid s,
    fun arg => pay_reject uid arg s⟩
  intro b k hu hr hd hm
  exact ride_end_no_mileage uid end_km s b k hu hr hd hm

/-- C3 counterexample: in a state where the caller has a pending ride start
at km 5 and the mileage is 0, `endRide` at km 10 rejects with NoMileage but
the pending ride start is gone afterwards — the rejection did change the
state, refuting the claim as stated. -/
theorem C3_counterexample :
    (ride_end "u" 10 noMileageState).1 = .noMileage ∧
    noMileageState.rideStart "u" = some 5 ∧
    ((ride_end "u" 10 noMileageState).2).rideStart "u" = none := by
  refine ⟨?_, ?_, ?_⟩ <;>
    norm_num +decide [ride_end, noMileageState, Function.update, eps]

/-- C3 witness: the amended NoMileage behaviour at the concrete state
`noMileageState`. -/
theorem C3_reject_purity_witness :
    ride_end "u" 10 noMileageState =
      (.noMileage,
       { noMileageState with
           rideStart := Function.update noMileageState.rideStart "u" none }) :=
  (C3_reject_purity_amended noMileageState "u" 10).1 .aditya 5
    (by norm_num +decide [noMileageState])
    (by norm_num +decide [noMileageState])
    (by norm_num)
    (by norm_num [noMileageState])

/-- C4: an accepted `endRide` (pending start, distance ≥ 0, positive
mileage, enough total fuel up to `eps`) consumes the pending start and:
if `tank[me]` covers `usedLiters`, only `tank[me]` changes, by exactly
`usedLiters`; otherwise `tank[me]` is set to exactly 0 (never negative),
`tank[other]` decreases by exactly `usedLiters - tank[me]_before`, and in
both branches `debt[me]` increases by exactly
`max 0 (usedLiters - tank[me]_before)`. -/
theorem C4_ride_end_accepted (s : LState) (uid : String) (end_km k : ℚ) (b : Bucket)
    (hreg : s.users uid = some b) (hstart : s.rideStart uid = some k)
    (hdist : 0 ≤ end_km - k) (hmil : 0 < s.mileage)
    (hfuel : (end_km - k) / s.mileage ≤ s.tank b + s.tank b.other + eps) :
    (ride_end uid end_km s).1 =
      .ok (end_km - k) ((end_km - k) / s.mileage)
        (max 0 ((end_km - k) / s.mileage - s.tank b)) ∧
    ((ride_end uid end_km s).2).debt b =
      s.debt b + max 0 ((end_km - k) / s.mileage - s.tank b) ∧
    ((ride_end uid end_km s).2).debt b.other = s.debt b.other ∧
    ((ride_end uid end_km s).2).users = s.users ∧
    ((ride_end uid end_km s).2).mileage = s.mileage ∧
    ((ride_end uid end_km s).2).lastPricePerLiter = s.lastPricePerLiter ∧
    ((ride_end uid end_km s).2).rideStart = Function.update s.rideStart uid none ∧
    (s.tank b ≥ (end_km - k) / s.mileage →
      ((ride_end uid end_km s).2).tank b = s.tank b - (end_km - k) / s.mileage ∧
      ((ride_end uid end_km s).2).tank b.other = s.tank b.other ∧
      ((ride_end uid end_km s).2).debt = s.debt) ∧
    (¬ s.tank b ≥ (end_km - k) / s.mileage →
      ((ride_end uid end_km s).2).tank b = 0 ∧
      0 ≤ ((ride_end uid end_km s).2).tank b ∧
      ((ride_end uid end_km s).2).tank b.other =
        s.tank b.other - ((end_km - k) / s.mileage - s.tank b)) := by
  have hd : ¬ end_km - k < 0 := not_lt.mpr hdist
  have hm : ¬ s.mileage ≤ 0 := not_le.mpr hmil
  have hf : ¬ (end_km - k) / s.mileage > s.tank b + s.tank b.other + eps := not_lt.mpr hfuel
  by_cases ht : s.tank b ≥ (end_km - k) / s.mileage
  · have hmax : max 0 ((end_km - k) / s.mileage - s.tank b) = 0 :=
      max_eq_left (by linarith)
    rw [ride_end_own_tank uid end_km s b k hreg hstart hd hm hf ht]
    refine ⟨by simp [hmax], by simp [hmax], rfl, rfl, rfl, rfl, rfl,
      fun _ => ⟨?_, ?_, rfl⟩, fun hcon => absurd ht hcon⟩
    · show Function.update s.tank b (s.tank b - (end_km - k) / s.mileage) b = _
      rw [Function.update_same]
    · show Function.update s.tank b (s.tank b - (end_km - k) / s.mileage) b.other = _
      rw [Function.update_noteq (Bucket.other_ne b)]
  · have hlt : s.tank b < (end_km - k) / s.mileage := not_le.mp ht
    have hmax : max 0 ((end_km - k) / s.mileage - s.tank b) =
        (end_km - k) / s.mileage - s.tank b :=
      max_eq_right (by linarith)
    rw [ride_end_borrow uid end_km s b k hreg hstart hd hm hf ht]
    have htb : Function.update (Function.update s.tank b 0) b.other
        (Function.update s.tank b 0 b.other - ((end_km - k) / s.mileage - s.tank b)) b
        = 0 := by
      rw [Function.update_noteq (Bucket.ne_other b), Function.update_same]
    have hto : Function.update (Function.update s.tank b 0) b.other
        (Function.update s.tank b 0 b.other - ((end_km - k) / s.mileage - s.tank b)) b.other
        = s.tank b.other - ((end_km - k) / s.mileage - s.tank b) := by
      rw [Function.update_same, Function.update_noteq (Bucket.other_ne b)]
    refine ⟨by simp [hmax], ?_, ?_, rfl, rfl, rfl, rfl,
      fun hcon => absurd hcon ht, fun _ => ⟨htb, le_of_eq htb.symm, hto⟩⟩
    · show Function.update s.debt b (s.debt b + ((end_km - k) / s.mileage - s.tank b)) b = _
      rw [Function.update_same, hmax]
    · show Function.update s.debt b (s.debt b + ((end_km - k) / s.mileage - s.tank b)) b.other
        = _
      rw [Function.update_noteq (Bucket.other_ne b)]

/-- C4 witness: at `demoState`, `aditya` ends a 400 km ride (10 L used,
tank held 4 L): own tank is driven to exactly 0, `archit`'s tank loses the
6 L shortfall, and `aditya`'s debt grows by exactly 6 L. -/
theorem C4_ride_end_accepted_witness :
    ((ride_end "a" 500 demoState).2).debt .aditya = 8 ∧
    ((ride_end "a" 500 demoState).2).tank .aditya = 0 ∧
    ((ride_end "a" 500 demoState).2).tank .archit = 1 := by
  have h := C4_ride_end_accepted demoState "a" 500 100 .aditya
    (by norm_num +decide [demoState])
    (by norm_num +decide [demoState])
    (by norm_num)
    (by norm_num [demoState])
    (by norm_num [demoState, Bucket.other, eps])
  have ht : ¬ demoState.tank .aditya ≥ (500 - 100 : ℚ) / demoState.mileage := by
    norm_num [demoState]
  refine ⟨?_, (h.2.2.2.2.2.2.2.2 ht).1, ?_⟩
  · rw [h.2.1]
    norm_num [demoState]
  · have := (h.2.2.2.2.2.2.2.2 ht).2.2
    rw [show (Bucket.aditya.other) = Bucket.archit from rfl] at this
    rw [this]
    norm_num [demoState]

/-- C5: a `fill` by a registered bucket with positive liters and cost
succeeds: it unconditionally sets `lastPricePerLiter` to `totalCost /
liters`, subtracts `clearLiters = min(liters, debt[bucket])` from the
filler's debt, credits those liters to the other tank, and credits the
remainder to the filler's own tank; with non-positive liters or cost it
rejects with InvalidValue and changes nothing.  (Stated over reachable
states, whose debts are non-negative.) -/
theorem C5_fill_behaviour (s : LState) (hs : Reachable s) (uid : String) (b : Bucket)
    (liters cost : ℚ) (hreg : s.users uid = some b) :
    (0 < liters → 0 < cost →
      (fill uid liters cost s).1 =
        .ok (min liters (s.debt b)) (liters - min liters (s.debt b)) (cost / liters) ∧
      ((fill uid liters cost s).2).lastPricePerLiter = cost / liters ∧
      ((fill uid liters cost s).2).debt b = s.debt b - min liters (s.debt b) ∧
      ((fill uid liters cost s).2).debt b.other = s.debt b.other ∧
      ((fill uid liters cost s).2).tank b.other = s.tank b.other + min liters (s.debt b) ∧
      ((fill uid liters cost s).2).tank b = s.tank b + (liters - min liters (s.debt b)) ∧
      ((fill uid liters cost s).2).users = s.users ∧
      ((fill uid liters cost s).2).rideStart = s.rideStart ∧
      ((fill uid liters cost s).2).mileage = s.mileage) ∧
    (liters ≤ 0 ∨ cost ≤ 0 → fill uid liters cost s = (.invalidValue, s)) := by
  constructor
  · intro hl hc
    have hv : ¬ (liters ≤ 0 ∨ cost ≤ 0) := by
      push_neg
      exact ⟨hl, hc⟩
    by_cases hcl : 0 < min liters (s.debt b)
    · rw [fill_ok_clearing uid liters cost s b hreg hv hcl]
      refine ⟨rfl, rfl, ?_, ?_, ?_, ?_, rfl, rfl, rfl⟩
      · show Function.update s.debt b (s.debt b - min liters (s.debt b)) b = _
        rw [Function.update_same]
      · show Function.update s.debt b (s.debt b - min liters (s.debt b)) b.other = _
        rw [Function.update_noteq (Bucket.other_ne b)]
      · show Function.update
          (Function.update s.tank b.other (s.tank b.other + min liters (s.debt b))) b
          (Function.update s.tank b.other (s.tank b.other + min liters (s.debt b)) b +
            (liters - min liters (s.debt b))) b.other = _
        rw [Function.update_noteq (Bucket.other_ne b), Function.update_same]
      · show Function.update
          (Function.update s.tank b.other (s.tank b.other + min liters (s.debt b))) b
          (Function.update s.tank b.other (s.tank b.other + min liters (s.debt b)) b +
            (liters - min liters (s.debt b))) b = _
        rw [Function.update_same, Function.update_noteq (Bucket.ne_other b)]
    · have hdeb : 0 ≤ s.debt b := (inv_of_reachable hs b).2
      have hcl0 : min liters (s.debt b) = 0 :=
        le_antisymm (not_lt.mp hcl) (le_min (le_of_lt hl) hdeb)
      rw [fill_ok_no_clear uid liters cost s b hreg hv hcl, hcl0]
      refine ⟨rfl, rfl, by simp, rfl,
        by simp [Function.update_noteq (Bucket.other_ne b)], ?_, rfl, rfl, rfl⟩
      show Function.update s.tank b (s.tank b + (liters - 0)) b = _
      rw [Function.update_same]
  · exact fill_invalid uid liters cost s b hreg

/-- C5 witness: on the reachable state `regA` (no debt), a fill of 5 L for
500 clears 0 L, credits all 5 L to the filler, and sets the price to 100. -/
theorem C5_fill_behaviour_witness :
    (fill "a" 5 500 regA).1 = .ok 0 5 100 ∧
    ((fill "a" 5 500 regA).2).tank .aditya = 5 ∧
    ((fill "a" 5 500 regA).2).lastPricePerLiter = 100 := by
  have h := (C5_fill_behaviour regA
    (Reachable.step (Op.register "a" "Aditya") Reachable.init) "a" .aditya 5 500
    (by norm_num +decide [regA, Op.apply, register, parseBucket, initState,
      Function.update])).1 (by norm_num) (by norm_num)
  refine ⟨?_, ?_, ?_⟩
  · rw [h.1]
    norm_num +decide [regA, Op.apply, register, parseBucket, initState, Function.update]
  · rw [h.2.2.2.2.2.1]
    norm_num +decide [regA, Op.apply, register, parseBucket, initState, Function.update]
  · rw [h.2.1]
    norm_num

/-- C6: a cash-mode `pay` by a registered bucket with positive amount,
positive price and debt above `eps` clears exactly
`min(debt[bucket], amount / lastPricePerLiter)` liters: that amount is
subtracted from the debt and added to the other bucket's tank, and the
remaining debt is never negative, however large the amount. -/
theorem C6_pay_cash (s : LState) (uid : String) (b : Bucket) (amount : ℚ)
    (hreg : s.users uid = some b) (hamt : 0 < amount)
    (hprice : 0 < s.lastPricePerLiter) (hdebt : eps < s.debt b) :
    (pay uid (.cash amount) s).1 =
      .okCash (min (s.debt b) (amount / s.lastPricePerLiter))
        (s.debt b - min (s.debt b) (amount / s.lastPricePerLiter)) ∧
    ((pay uid (.cash amount) s).2).debt b =
      s.debt b - min (s.debt b) (amount / s.lastPricePerLiter) ∧
    ((pay uid (.cash amount) s).2).tank b.other =
      s.tank b.other + min (s.debt b) (amount / s.lastPricePerLiter) ∧
    0 ≤ ((pay uid (.cash amount) s).2).debt b ∧
    ((pay uid (.cash amount) s).2).debt b.other = s.debt b.other ∧
    ((pay uid (.cash amount) s).2).tank b = s.tank b := by
  have ha : ¬ amount ≤ 0 := not_le.mpr hamt
  have hp : ¬ s.lastPricePerLiter ≤ 0 := not_le.mpr hprice
  have hd : ¬ s.debt b < eps := not_lt.mpr (le_of_lt hdebt)
  rw [pay_cash_ok uid amount s b hreg ha hp hd]
  have hdb : Function.update s.debt b
      (s.debt b - min (s.debt b) (amount / s.lastPricePerLiter)) b =
      s.debt b - min (s.debt b) (amount / s.lastPricePerLiter) := Function.update_same _ _ _
  refine ⟨rfl, hdb, ?_, ?_, ?_, ?_⟩
  · show Function.update s.tank b.other
      (s.tank b.other + min (s.debt b) (amount / s.lastPricePerLiter)) b.other = _
    rw [Function.update_same]
  · show (0 : ℚ) ≤ Function.update s.debt b
      (s.debt b - min (s.debt b) (amount / s.lastPricePerLiter)) b
    rw [Function.update_same]
    have := min_le_left (s.debt b) (amount / s.lastPricePerLiter)
    linarith
  · show Function.update s.debt b
      (s.debt b - min (s.debt b) (amount / s.lastPricePerLiter)) b.other = _
    rw [Function.update_noteq (Bucket.other_ne b)]
  · show Function.update s.tank b.other
      (s.tank b.other + min (s.debt b) (amount / s.lastPricePerLiter)) b = _
    rw [Function.update_noteq (Bucket.ne_other b)]

/-- C6 witness: at `demoState` (debt 2 L, price 100), paying 100 in cash
clears exactly 1 L, leaving 1 L of debt. -/
theorem C6_pay_cash_witness :
    (pay "a" (.cash 100) demoState).1 = .okCash 1 1 ∧
    ((pay "a" (.cash 100) demoState).2).debt .aditya = 1 := by
  have h := C6_pay_cash demoState "a" .aditya 100
    (by norm_num +decide [demoState])
    (by norm_num)
    (by norm_num [demoState])
    (by norm_num [demoState, eps])
  refine ⟨?_, ?_⟩
  · rw [h.1]
    norm_num [demoState]
  · rw [h.2.1]
    norm_num [demoState]

/-- C7: an `endRide` rejected with NegativeDistance or InsufficientFuel
restores the popped pending ride start, so the whole resulting state equals
the state before the call and the ride can be retried without a new
`startRide`. -/
theorem C7_ride_end_restores (s : LState) (uid : String) (end_km k : ℚ) (b : Bucket)
    (hreg : s.users uid = some b) (hstart : s.rideStart uid = some k) :
    (end_km - k < 0 → ride_end uid end_km s = (.negativeDistance, s)) ∧
    (0 ≤ end_km - k → 0 < s.mileage →
      s.tank b + s.tank b.other + eps < (end_km - k) / s.mileage →
      ride_end uid end_km s =
        (.insufficientFuel ((end_km - k) / s.mileage) (s.tank b + s.tank b.other), s)) := by
  constructor
  · intro hd
    exact ride_end_neg_distance uid end_km s b k hreg hstart hd
  · intro hd hm hf
    exact ride_end_insufficient uid end_km s b k hreg hstart (not_lt.mpr hd)
      (not_le.mpr hm) hf

/-- C7 witness: at `demoState`, ending a ride at km 50 with a pending start
at km 100 rejects with NegativeDistance and returns exactly the prior
state. -/
theorem C7_ride_end_restores_witness :
    ride_end "a" 50 demoState = (.negativeDistance, demoState) :=
  (C7_ride_end_restores demoState "a" 50 100 .aditya
    (by norm_num +decide [demoState])
    (by norm_num +decide [demoState])).1 (by norm_num)

/-- C8: `settle` rejects with NoPriceSet exactly when `lastPricePerLiter ≤
0`; otherwise it reports `litersOwed = debt[bucket]` and `cashValue =
debt[bucket] * lastPricePerLiter`; in both cases the state is unchanged. -/
theorem C8_settle_behaviour (s : LState) (uid : String) (b : Bucket)
    (hreg : s.users uid = some b) :
    ((settle uid s).1 = .noPriceSet ↔ s.lastPricePerLiter ≤ 0) ∧
    (0 < s.lastPricePerLiter →
      (settle uid s).1 = .ok (s.debt b) (s.debt b * s.lastPricePerLiter)) ∧
    (settle uid s).2 = s := by
  by_cases hp : s.lastPricePerLiter ≤ 0
  · rw [settle_no_price uid s b hreg hp]
    refine ⟨by simp [hp], fun hcon => absurd hp (not_le.mpr hcon), rfl⟩
  · rw [settle_ok uid s b hreg hp]
    refine ⟨?_, fun _ => rfl, rfl⟩
    simp only [hp, iff_false]
    intro hcon
    exact SettleResult.noConfusion hcon

/-- C8 witness: at `demoState` (debt 2, price 100), `settle` reports 2 L
owed worth 200 and leaves the state unchanged. -/
theorem C8_settle_behaviour_witness :
    (settle "a" demoState).1 = .ok 2 200 ∧ (settle "a" demoState).2 = demoState := by
  have h := C8_settle_behaviour demoState "a" .aditya (by norm_num +decide [demoState])
  refine ⟨?_, h.2.2⟩
  · rw [h.2.1 (by norm_num [demoState])]
    norm_num [demoState]

/-- C9: full-mode `pay` never rejects with NoPriceSet: whenever
`debt[bucket] > 0` — even with `lastPricePerLiter = 0` — it succeeds,
zeroes the debt, and credits the full cleared amount to the other tank; it
rejects with NoDebt exactly when `debt[bucket] ≤ 0`. -/
theorem C9_pay_full (s : LState) (uid : String) (b : Bucket)
    (hreg : s.users uid = some b) :
    (pay uid .full s).1 ≠ .noPriceSet ∧
    (0 < s.debt b →
      (pay uid .full s).1 = .okFull (s.debt b) ∧
      ((pay uid .full s).2).debt b = 0 ∧
      ((pay uid .full s).2).tank b.other = s.tank b.other + s.debt b ∧
      ((pay uid .full s).2).debt b.other = s.debt b.other ∧
      ((pay uid .full s).2).tank b = s.tank b) ∧
    (s.debt b ≤ 0 → pay uid .full s = (.noDebt, s)) := by
  by_cases hd : s.debt b ≤ 0
  · rw [pay_full_no_debt uid s b hreg hd]
    exact ⟨fun hcon => PayResult.noConfusion hcon,
      fun hcon => absurd hd (not_le.mpr hcon), fun _ => rfl⟩
  · rw [pay_full_ok uid s b hreg hd]
    refine ⟨fun hcon => PayResult.noConfusion hcon,
      fun _ => ⟨rfl, ?_, ?_, ?_, ?_⟩, fun hcon => absurd hcon hd⟩
    · show Function.update s.debt b 0 b = 0
      rw [Function.update_same]
    · show Function.update s.tank b.other (s.tank b.other + s.debt b) b.other = _
      rw [Function.update_same]
    · show Function.update s.debt b 0 b.other = _
      rw [Function.update_noteq (Bucket.other_ne b)]
    · show Function.update s.tank b.other (s.tank b.other + s.debt b) b = _
      rw [Function.update_noteq (Bucket.ne_other b)]

/-- C9 witness: at `zeroPriceDebtState` (debt 3 L, price 0), `pay full`
succeeds — no NoPriceSet — and zeroes the debt. -/
theorem C9_pay_full_witness :
    zeroPriceDebtState.lastPricePerLiter = 0 ∧
    (pay "a" .full zeroPriceDebtState).1 = .okFull 3 ∧
    ((pay "a" .full zeroPriceDebtState).2).debt .aditya = 0 := by
  have h := C9_pay_full zeroPriceDebtState "a" .aditya
    (by norm_num +decide [zeroPriceDebtState])
  have h3 := h.2.1 (by norm_num [zeroPriceDebtState])
  refine ⟨rfl, ?_, h3.2.1⟩
  rw [h3.1]
  norm_num [zeroPriceDebtState]

/-- C10: `startRide` validates nothing: for any registered caller and any
odometer value (zero and negative included) it succeeds and the resulting
state is exactly the old one with that caller's pending ride start
overwritten by the given value — no other field changes. -/
theorem C10_ride_start_behaviour (s : LState) (uid : String) (km : ℚ) (b : Bucket)
    (hreg : s.users uid = some b) :
    ride_start uid km s =
      (.ok, { s with rideStart := Function.update s.rideStart uid (some km) }) :=
  ride_start_ok uid km s b hreg

/-- C10 witness: a negative odometer start at `demoState` succeeds and
overwrites the existing pending start. -/
theorem C10_ride_start_behaviour_witness :
    ride_start "a" (-5) demoState =
      (.ok, { demoState with
                rideStart := Function.update demoState.rideStart "a" (some (-5)) }) :=
  C10_ride_start_behaviour demoState "a" (-5) .aditya
    (by norm_num +decide [demoState])

end FuelBot
